import Mathlib


/-!
Verification development for the tiered memory engine of this repository.

The definitions below are a shallow embedding of the Python source files
  grace_core_systems/central_intelligance/storage/sovereign_memory.py
  grace_core_systems/main/memory_anchor_auditor.py
  grace_core_systems/main/memory_fusion_vault.py
  grace_core_systems/main/memory_decay_sandbox.py
  grace_core_systems/main/memory_lightening_store.py
Python floats are modelled as rationals, dicts as association lists,
wall-clock timestamps as an explicit `now` argument, and uuid-based id
generation as a fresh counter in the state.  External collaborators
(sha256 hashing, similarity scoring, retrieval) are function parameters,
as the spec treats them as injected, replaceable functions.
-/

set_option autoImplicit false


namespace GraceMemory


/-- Python values occurring in the payload dicts handled by the engine:
strings, booleans, numbers (floats as rationals) and the Python None. -/
inductive Val where
  | s (v : String)
  | b (v : Bool)
  | q (v : ℚ)
  | none
deriving DecidableEq


/-- A Python dict with string keys, modelled as an association list.
Lookups return the first binding of a key; the update operation below
keeps keys unique, matching Python dict semantics. -/
abbrev PyDict := List (String × Val)


/-- Dict read, modelling `d[k]` / `d.get(k)`: first binding of the key. -/
def dictGet (d : PyDict) (k : String) : Option Val :=
  d.lookup k


/-- Dict update, modelling the Python merge `{**d, k: v}`: any previous
binding of `k` is replaced. -/
def dictSet (d : PyDict) (k : String) (v : Val) : PyDict :=
  d.filter (fun p => p.1 != k) ++ [(k, v)]


/-- The three memory tiers of sovereign_memory.py (`MemoryTier`):
LIGHTNING is the volatile tier, FUSION the immutable tier, TREE the
semantic graph tier. -/
inductive MemoryTier where
  | lightning
  | fusion
  | tree
deriving DecidableEq


/-- Access levels of sovereign_memory.py (`MemoryAccessLevel`). -/
inductive MemoryAccessLevel where
  | read
  | write
  | derive
deriving DecidableEq


/-- Embedding of `MemoryNode` dataclass of sovereign_memory.py. -/
structure MemoryNode where
  id : String
  content : PyDict
  tier : MemoryTier
  creation_time : ℚ
  last_accessed : ℚ
  trust_score : ℚ
  dependencies : List String
  degradation_rate : ℚ
deriving DecidableEq


/-- Embedding of `MemoryRequest` dataclass of sovereign_memory.py. -/
structure MemoryRequest where
  requester : String
  intent : String
  context : PyDict
  requested_tier : MemoryTier
  access_type : MemoryAccessLevel
  justification : String
deriving DecidableEq


/-- Embedding of `MemoryResponse` dataclass of sovereign_memory.py.  `content` is
`Option` because the denied branch returns `content=None`; `scope_limits`
is `Option` because `AccessResult.scope_limits` defaults to Python None. -/
structure MemoryResponse where
  content : Option PyDict
  metadata : PyDict
  access_granted : Bool
  scope_limits : Option PyDict
  degradation : ℚ
deriving DecidableEq


/-- One entry of `SovereignMemory.request_log`: the code appends
`\x7btimestamp, request, granted\x7d` dicts. -/
structure LogEntry where
  timestamp : ℚ
  request : MemoryRequest
  granted : Bool
deriving DecidableEq


/-- One entry of `SovereignMemory.active_instances`. -/
structure InstanceInfo where
  blueprint : String
  memory_slice : List String
  created : ℚ
  last_activity : ℚ
  status : String
deriving DecidableEq


/-- Anomaly record returned by `DegradationMonitor.check`. -/
structure Anomaly where
  type : String
  severity : ℚ
  deprecate_prior : Option String
deriving DecidableEq


/-- State of a `SovereignMemory` object: the three tier stores, the
semantic-graph edges, the request log and the active instance table.
`counter` replaces `uuid.uuid4()` as the source of fresh ids; the
ingestion queue bookkeeping (status strings on queued items) carries no
information any claim refers to and is not modelled. -/
structure SMState where
  lightning_cache : List (String × MemoryNode)
  fusion_archive : List (String × MemoryNode)
  tree_nodes : List (String × MemoryNode)
  tree_edges : List (String × String)
  request_log : List LogEntry
  active_instances : List (String × InstanceInfo)
  counter : Nat
deriving DecidableEq


/-- Injected collaborator functions, per spec section 6: `H` models
`sha256(json.dumps(data)).hexdigest()`, `shouldLink` the absent
`_should_link` similarity predicate, `retrieve` the absent
`_retrieve_memory` selection (it names the id of the node the retrieval
picks for a request, if any). -/
structure Collab where
  H : PyDict → String
  shouldLink : MemoryNode → MemoryNode → Bool
  retrieve : SMState → MemoryRequest → Option String


/-- Surrogate for `len(json.dumps(v))` on a single value.  No claim
depends on the exact serialized length; only the shape of the
degradation-rate formula consuming it matters. -/
def valLen : Val → Nat
  | .s v => v.length + 2
  | .b true => 4
  | .b false => 5
  | .q _ => 3
  | .none => 4


/-- Surrogate for `len(json.dumps(d))` on a dict. -/
def jsonLen (d : PyDict) : Nat :=
  2 + (d.map (fun p => p.1.length + valLen p.2 + 4)).sum


/-- Embedding of `SovereignMemory._calculate_degradation_rate`: complexity is the
serialized size in KB; lightning decays fastest, fusion slowest. -/
def calculate_degradation_rate (data : PyDict) (tier : MemoryTier) : ℚ :=
  let complexity : ℚ := (jsonLen data : ℚ) / 1000
  match tier with
  | .lightning => min (1/10 + complexity * (1/100)) (1/2)
  | .fusion => 1/100
  | .tree => 1/20


/-- Embedding of `SovereignMemory._store_in_semantic_tree`: add the node to the graph
and link it to every existing node accepted by the similarity predicate. -/
def store_in_semantic_tree (cb : Collab) (st : SMState) (node : MemoryNode) : SMState :=
  let st1 := { st with tree_nodes := st.tree_nodes ++ [(node.id, node)] }
  let newEdges := st1.tree_nodes.filterMap (fun p =>
    if p.1 != node.id && cb.shouldLink node p.2 then some (node.id, p.1) else Option.none)
  { st1 with tree_edges := st1.tree_edges ++ newEdges }


/-- Embedding of `SovereignMemory.store`: create a `MemoryNode` with fresh id, empty
dependencies and a computed degradation rate, and file it in the store of
the requested tier.  Returns the new state and the new memory id. -/
def store (cb : Collab) (st : SMState) (now : ℚ) (data : PyDict)
    (tier : MemoryTier) (trust_score : ℚ) : SMState × String :=
  let mem_id := "mem_" ++ toString st.counter
  let node : MemoryNode :=
    { id := mem_id
      content := data
      tier := tier
      creation_time := now
      last_accessed := now
      trust_score := trust_score
      dependencies := []
      degradation_rate := calculate_degradation_rate data tier }
  let st1 := { st with counter := st.counter + 1 }
  match tier with
  | .lightning => ({ st1 with lightning_cache := st1.lightning_cache ++ [(mem_id, node)] }, mem_id)
  | .fusion => ({ st1 with fusion_archive := st1.fusion_archive ++ [(mem_id, node)] }, mem_id)
  | .tree => (store_in_semantic_tree cb st1 node, mem_id)


/-- Node lookup by id across the three tier stores.  Modelled from the
spec: SovereignMemory calls a `_get_memory_by_id` helper that is absent
from the source tree; per the data model (spec section 3) every node
lives in exactly one tier store, so the lookup searches lightning, then
fusion, then tree. -/
def get_memory_by_id (st : SMState) (mem_id : String) : Option MemoryNode :=
  ((st.lightning_cache.lookup mem_id).orElse fun _ =>
    (st.fusion_archive.lookup mem_id).orElse fun _ =>
      st.tree_nodes.lookup mem_id)


/-- Replace the value bound to a key in an association list (first and
all further bindings of that key), leaving other keys untouched. -/
def assocSet (l : List (String × MemoryNode)) (k : String) (n : MemoryNode) :
    List (String × MemoryNode) :=
  l.map (fun p => if p.1 == k then (k, n) else p)


/-- In-place mutation of the node with the given id, wherever it is
stored.  This models Python object mutation (`mem.dependencies.append`,
`memory.last_accessed = ...`) on the node found by `get_memory_by_id`. -/
def setNodeById (st : SMState) (mem_id : String) (n : MemoryNode) : SMState :=
  if (st.lightning_cache.lookup mem_id).isSome then
    { st with lightning_cache := assocSet st.lightning_cache mem_id n }
  else if (st.fusion_archive.lookup mem_id).isSome then
    { st with fusion_archive := assocSet st.fusion_archive mem_id n }
  else if (st.tree_nodes.lookup mem_id).isSome then
    { st with tree_nodes := assocSet st.tree_nodes mem_id n }
  else st


/-- Python `str.startswith`, modelled as a prefix test on the character
data. -/
def startswith (s pre : String) : Bool :=
  pre.data.isPrefixOf s.data


/-- Result record of `AccessPolicyEngine.evaluate` (`AccessResult`
dataclass): `rejection_reason` and `scope_limits` default to None. -/
structure AccessResult where
  granted : Bool
  rejection_reason : Option String
  scope_limits : Option PyDict
deriving DecidableEq


/-- Embedding of `AccessPolicyEngine.evaluate`: WRITE is granted only to requesters
whose fingerprint starts with "trusted_", otherwise denied with reason
"Write access restricted"; READ and DERIVE are always granted with a
one-hour validity window (seconds) and the stated intent as usage scope. -/
def evaluate (now : ℚ) (req : MemoryRequest) : AccessResult :=
  if req.access_type = .write then
    { granted := startswith req.requester "trusted_"
      rejection_reason :=
        if startswith req.requester "trusted_" then Option.none
        else some "Write access restricted"
      scope_limits := Option.none }
  else
    { granted := true
      rejection_reason := Option.none
      scope_limits := some [("valid_until", .q (now + 3600)), ("usage_scope", .s req.intent)] }


/-- Append to `request_log`, a `deque(maxlen=100_000)`: the new entry
goes to the right and, if the deque is full, the oldest entry is dropped
from the left. -/
def dequeAppend (maxLen : Nat) (l : List LogEntry) (e : LogEntry) : List LogEntry :=
  let l2 := l ++ [e]
  l2.drop (l2.length - maxLen)


/-- Mutate the `granted` field of the last request-log entry, modelling
`self.request_log[-1]['granted'] = ...`. -/
def setLastGranted (l : List LogEntry) (b : Bool) : List LogEntry :=
  match l.getLast? with
  | Option.none => l
  | some e => l.dropLast ++ [{ e with granted := b }]


/-- Embedding of `SovereignMemory.request_memory`: log the request (outcome
temporarily False), evaluate policy, then either retrieve the selected
node (updating its `last_accessed`) or build the denial response; finally
rewrite the logged outcome to the response's `access_granted`.  The
retrieval helper `_retrieve_memory` is absent from the source tree; it is
modelled from the spec via `cb.retrieve`, which names the node the
retrieval selects, and the call is an `Except` because the source code
would raise on a retrieval miss. -/
def request_memory (cb : Collab) (st : SMState) (now : ℚ) (req : MemoryRequest) :
    Except String (SMState × MemoryResponse) :=
  let st1 := { st with
    request_log := dequeAppend 100000 st.request_log
      { timestamp := now, request := req, granted := false } }
  let access := evaluate now req
  let step : Except String (SMState × MemoryResponse) :=
    if access.granted then
      match cb.retrieve st1 req with
      | Option.none => .error "retrieval miss"
      | some nid =>
        match get_memory_by_id st1 nid with
        | Option.none => .error "retrieval miss"
        | some node =>
          let resp : MemoryResponse :=
            { content := some node.content
              metadata := [("id", .s node.id),
                           ("tier", .s (match node.tier with
                                        | .lightning => "lightning"
                                        | .fusion => "fusion"
                                        | .tree => "tree")),
                           ("trust_score", .q node.trust_score)]
              access_granted := true
              scope_limits := access.scope_limits
              degradation := node.degradation_rate }
          .ok (setNodeById st1 nid { node with last_accessed := now }, resp)
    else
      .ok (st1,
        { content := Option.none
          metadata := [("reason", match access.rejection_reason with
                                  | some r => .s r
                                  | Option.none => Val.none)]
          access_granted := false
          scope_limits := some []
          degradation := 0 })
  match step with
  | .error e => .error e
  | .ok (st2, resp) =>
    .ok ({ st2 with request_log := setLastGranted st2.request_log resp.access_granted }, resp)


/-- Embedding of `SovereignMemory.spawn_instance`: register an active view over the
given memory slice and return its fresh id. -/
def spawn_instance (st : SMState) (now : ℚ) (blueprint_id : String)
    (memory_slice : List String) : SMState × String :=
  let instance_id := "inst_" ++ toString st.counter
  ({ st with
      counter := st.counter + 1
      active_instances := st.active_instances ++
        [(instance_id,
          { blueprint := blueprint_id
            memory_slice := memory_slice
            created := now
            last_activity := now
            status := "active" })] },
   instance_id)


/-- Single step of the dependency loop in `collapse_instance`: if the
borrowed node exists, append the result id to its dependencies. -/
def append_dependency (st : SMState) (result_id : String) (mem_id : String) : SMState :=
  match get_memory_by_id st mem_id with
  | some mem => setNodeById st mem_id { mem with dependencies := mem.dependencies ++ [result_id] }
  | Option.none => st


/-- Embedding of `SovereignMemory.collapse_instance`: returns False when the instance
is unknown or already collapsed; otherwise removes the view, stores the
results as a new LIGHTNING node with trust 0.9, appends the result id to
the dependencies of every borrowed node that exists, and returns True. -/
def collapse_instance (cb : Collab) (st : SMState) (now : ℚ) (instance_id : String)
    (results : PyDict) : SMState × Bool :=
  match st.active_instances.lookup instance_id with
  | Option.none => (st, false)
  | some inst =>
    let st1 := { st with
      active_instances := st.active_instances.filter (fun p => p.1 != instance_id) }
    let p := store cb st1 now results .lightning (9/10)
    let st3 := inst.memory_slice.foldl (fun acc mem_id => append_dependency acc p.2 mem_id) p.1
    (st3, true)


/-- Embedding of `PerformanceLedger.score`: perf score from the sandbox outputs. -/
def score (risk_score compatibility : ℚ) : ℚ :=
  (1 - risk_score) * (6/10) + compatibility * (4/10)


/-- Embedding of `DegradationMonitor.check`: flag a low-performance anomaly below the
0.3 threshold; `deprecate_prior` is always None in the source. -/
def check (_data : PyDict) (perf_score : ℚ) : Option Anomaly :=
  if perf_score < 3/10 then
    some { type := "low_performance", severity := 1 - perf_score, deprecate_prior := Option.none }
  else
    Option.none


/-- Embedding of `SovereignMemory._refactor_memory`: tag the payload with
`_refactored`, `_anomaly` (the anomaly type) and `_original_hash` (the
hash of the untagged payload). -/
def refactor_memory (cb : Collab) (data : PyDict) (anomaly : Anomaly) : PyDict :=
  dictSet (dictSet (dictSet data "_refactored" (.b true))
    "_anomaly" (.s anomaly.type))
    "_original_hash" (.s (cb.H data))


/-- Outcome of one ingestion run. -/
structure IngestResult where
  state : SMState
  memory_id : String
  status : String
deriving DecidableEq


/-- Embedding of `SovereignMemory._process_ingestion`, steps 1 to 6 on one item.  The
sandbox evaluation (step 1) is delegated to an external scorer, so its
outputs `risk` and `compat` are inputs here; step 6 never fires because
`check` always sets `deprecate_prior` to None, so the absent
`_flag_deprecated` helper is not modelled.  The queue status bookkeeping
around the pipeline is not modelled (no claim refers to it). -/
def process_ingestion (cb : Collab) (st : SMState) (now : ℚ) (data : PyDict)
    (risk compat : ℚ) : IngestResult :=
  let perf_score := score risk compat
  let anomaly := check data perf_score
  let data1 := match anomaly with
    | some a => refactor_memory cb data a
    | Option.none => data
  let p := store cb st now data1
    (if perf_score > 7/10 then .fusion else .lightning) perf_score
  { state := p.1, memory_id := p.2, status := "completed" }


/-- Tier placement as a function of the perf score alone, in the words of
the spec: above 0.7 goes to the immutable (fusion) tier, everything else
to the volatile (lightning) tier. -/
def tier_for_score (perf_score : ℚ) : MemoryTier :=
  if perf_score > 7/10 then .fusion else .lightning


/-- Which tier store physically grew during an ingestion run over the
prior state: the observation used to state tier-placement claims. -/
def committed_tier (st : SMState) (r : IngestResult) : Option MemoryTier :=
  if r.state.fusion_archive.length > st.fusion_archive.length then some .fusion
  else if r.state.lightning_cache.length > st.lightning_cache.length then some .lightning
  else if r.state.tree_nodes.length > st.tree_nodes.length then some .tree
  else Option.none


/-! Embedding of memory_anchor_auditor.py. -/

/-- One line of the audit trail written by `AnchorAuditor`: the code
serializes `\x7btimestamp, action, data, previous_hash\x7d`, hashes that
string, then adds the hash under `entry_hash`. -/
structure AuditEntry where
  timestamp : ℚ
  action : String
  data : PyDict
  previous_hash : Option String
  entry_hash : String
deriving DecidableEq


/-- State of an `AnchorAuditor`: the appended log lines and the rolling
`last_hash`. -/
structure AuditorState where
  log : List AuditEntry
  last_hash : Option String
deriving DecidableEq


/-- A fresh `AnchorAuditor`: empty trail, `last_hash = None`. -/
def auditorInit : AuditorState := { log := [], last_hash := Option.none }


/-- Embedding of `AnchorAuditor.log_anchor_change`: build the entry with the rolling
previous hash, hash its serialization (`Hfn` models
`sha256(json.dumps(entry)).hexdigest()` on the four recorded fields),
append, and advance `last_hash`. -/
def log_anchor_change (Hfn : ℚ → String → PyDict → Option String → String)
    (st : AuditorState) (now : ℚ) (action : String) (data : PyDict) : AuditorState :=
  let entry_hash := Hfn now action data st.last_hash
  { log := st.log ++
      [{ timestamp := now, action := action, data := data,
         previous_hash := st.last_hash, entry_hash := entry_hash }]
    last_hash := some entry_hash }


/-- Embedding of `AnchorAuditor.verify_chain`, verbatim from the source: the body is a
stub that returns True unconditionally (the source comment reads
"Implementation left for blockchain integration"). -/
def verify_chain (_st : AuditorState) : Bool := true


/-- Chain integrity as the spec defines it (section 3), stated for
comparison with the source's `verify_chain`: every entry after the first
must carry the previous entry's `entry_hash` as its `previous_hash`. -/
def chainLinked : List AuditEntry → Bool
  | [] => true
  | [_] => true
  | e1 :: e2 :: rest => (e2.previous_hash == some e1.entry_hash) && chainLinked (e2 :: rest)


/-- Chain integrity as the spec defines it (section 3), stated for
comparison with the source's `verify_chain`: recomputing every entry's
hash from its recorded fields must reproduce the stored value, and the
`previous_hash` links must match. -/
def spec_chain_integrity (Hfn : ℚ → String → PyDict → Option String → String)
    (log : List AuditEntry) : Bool :=
  (log.all fun e => e.entry_hash == Hfn e.timestamp e.action e.data e.previous_hash) &&
    chainLinked log


/-- In-place mutation of the payload of the i-th historical audit entry,
the tampering the chain-integrity property quantifies over. -/
def tamper_payload (log : List AuditEntry) (i : Nat) (d : PyDict) : List AuditEntry :=
  match log.get? i with
  | some e => log.set i { e with data := d }
  | Option.none => log


/-! Embedding of memory_fusion_vault.py. -/

/-- One row of the `anchors` table (column `id` is the primary key). -/
structure VaultRow where
  content_hash : String
  versions : List String
  merkle_proof : String
  created : Val
  modified : Val
deriving DecidableEq


/-- State of a `FusionVault`: the `anchors` table keyed by `id`. -/
structure VaultState where
  anchors : List (String × VaultRow)
deriving DecidableEq


/-- A fresh `FusionVault`: empty table. -/
def vaultInit : VaultState := { anchors := [] }


/-- Embedding of `FusionVault._build_merkle_proof`: hash of the f-string
`"\x7bprevious_hash\x7d|\x7bcurrent_hash\x7d"`; a Python None prints as
"None".  `sha` models `sha256(...).hexdigest()` on strings. -/
def build_merkle_proof (sha : String → String) (previous_hash : Option String)
    (current_hash : String) : String :=
  sha ((match previous_hash with
        | some p => p
        | Option.none => "None") ++ "|" ++ current_hash)


/-- Embedding of `FusionVault.anchor`: compute the content hash (`H` models
`_hash_data`, i.e. `sha256(json.dumps(data))`), the single-element
version list and the merkle proof, then INSERT the row.  The `id` primary
key makes sqlite raise `IntegrityError` for any duplicate id; a payload
without an `id` or `timestamp` key raises before the insert.  On error
the `with self.conn` transaction leaves the table unchanged, so the error
branch returns no new state. -/
def anchor (H : PyDict → String) (sha : String → String) (st : VaultState)
    (data : PyDict) (previous_hash : Option String) :
    Except String (VaultState × String) :=
  let content_hash := H data
  let versions := [content_hash]
  let merkle_proof := build_merkle_proof sha previous_hash content_hash
  match dictGet data "id", dictGet data "timestamp" with
  | some (.s id), some ts =>
    if (st.anchors.lookup id).isSome then .error "IntegrityError"
    else .ok ({ anchors := st.anchors ++
                [(id, { content_hash := content_hash, versions := versions,
                        merkle_proof := merkle_proof, created := ts, modified := ts })] },
              content_hash)
  | _, _ => .error "KeyError"


/-! Embedding of memory_decay_sandbox.py. -/

/-- Values held by the pending-anchor dicts of `DecaySandbox`: ordinary
payload values plus numpy context vectors.  Vectors are opaque handles
(naturals); the cosine similarity consuming them is the injected
collaborator of spec section 6, so vector internals never matter. -/
inductive DVal where
  | val (v : Val)
  | vec (v : ℕ)
deriving DecidableEq


/-- A pending-anchor dict. -/
abbrev DDict := List (String × DVal)


/-- Dict read on pending-anchor dicts. -/
def ddictGet (d : DDict) (k : String) : Option DVal :=
  d.lookup k


/-- One element of the `live_data` list returned by the volatile store's
recent-window retrieval; the source reads its `id` and `context_vector`
keys. -/
structure LiveEntry where
  id : String
  context_vector : ℕ
deriving DecidableEq


/-- One entropy record built by `analyze_anchors`. -/
structure EntropyLog where
  anchor_id : DVal
  conflict_with : List String
  resolution : String
deriving DecidableEq


/-- Embedding of `DecaySandbox.add_expired_anchor`: append a pending dict holding
exactly the keys `content`, `decay_reason` (defaulting to "time") and
`context_vector`; `gen` models the external `_generate_context_vector`
embedding.  A payload without a `content` key raises KeyError. -/
def add_expired_anchor (gen : DDict → ℕ) (pending : List DDict) (anchor : DDict) :
    Except String (List DDict) :=
  match ddictGet anchor "content" with
  | Option.none => .error "KeyError: content"
  | some c =>
    let dr := (ddictGet anchor "decay_reason").getD (.val (.s "time"))
    .ok (pending ++ [[("content", c), ("decay_reason", dr), ("context_vector", .vec (gen anchor))]])


/-- Embedding of `DecaySandbox._has_conflict`: mean cosine similarity of the expired
vector against the live vectors below -0.3.  On an empty list `np.mean`
is nan and the comparison is False. -/
def has_conflict (cos : ℕ → ℕ → ℚ) (expired_vec : ℕ) (live_data : List LiveEntry) : Bool :=
  match live_data with
  | [] => false
  | _ =>
    let sims := live_data.map (fun d => cos expired_vec d.context_vector)
    decide (sims.sum / (sims.length : ℚ) < -3/10)


/-- Embedding of `DecaySandbox._has_reinforcement`: at least 3 entries in `live_data`
(the count of the returned list, with no similarity re-check). -/
def has_reinforcement (_expired : DDict) (live_data : List LiveEntry) : Bool :=
  decide (live_data.length ≥ 3)


/-- Modelled from the spec: `DecaySandbox._revise_anchor` is called by
`analyze_anchors` but absent from the source tree; spec section 4.5 says
the reinforced entry is re-admitted as a new node carrying forward its
dependencies, so the revised anchor is the expired record itself, handed
back for re-ingestion. -/
def revise_anchor (expired : DDict) (_live_data : List LiveEntry) : DDict :=
  expired


/-- Recursion of `analyze_anchors` over the pending list, accumulating
`new_anchors` and `entropy_logs`.  The contradiction branch reads
`expired["id"]`, raising KeyError when the pending dict has no such key;
the `Except` propagates that exception. -/
def analyze_go (cos : ℕ → ℕ → ℚ) (get_recent : ℕ → List LiveEntry) :
    List DDict → List DDict → List EntropyLog →
    Except String (List DDict × List EntropyLog)
  | [], new_anchors, entropy_logs => .ok (new_anchors, entropy_logs)
  | expired :: rest, new_anchors, entropy_logs =>
    match ddictGet expired "context_vector" with
    | some (.vec v) =>
      let live_data := get_recent v
      if has_conflict cos v live_data then
        match ddictGet expired "id" with
        | Option.none => .error "KeyError: id"
        | some idv =>
          analyze_go cos get_recent rest new_anchors
            (entropy_logs ++ [{ anchor_id := idv,
                                conflict_with := live_data.map (fun d => d.id),
                                resolution := "contradiction" }])
      else if has_reinforcement expired live_data then
        analyze_go cos get_recent rest (new_anchors ++ [revise_anchor expired live_data]) entropy_logs
      else
        analyze_go cos get_recent rest new_anchors entropy_logs
    | _ => .error "KeyError: context_vector"


/-- Embedding of `DecaySandbox.analyze_anchors`: for each pending expired anchor fetch
the recent window of live entries and decide contradiction, reinforcement
or archival.  `get_recent` is modelled from the spec: the volatile
store's `get_recent` is absent from the source tree, and spec section 4.5
only says the loop compares the expired entry against a recent window of
live entries, so the window supplier is an arbitrary injected function.
The pending list is cleared by the caller; the function returns the pair
`(new_anchors, entropy_logs)`. -/
def analyze_anchors (cos : ℕ → ℕ → ℚ) (get_recent : ℕ → List LiveEntry)
    (pending : List DDict) : Except String (List DDict × List EntropyLog) :=
  analyze_go cos get_recent pending [] []


/-! Embedding of memory_lightening_store.py. -/

/-- One record of the `lightning:meta` Redis hash. -/
structure MetaInfo where
  created : ℚ
  last_accessed : ℚ
  access_count : ℕ
deriving DecidableEq


/-- State of a `LightningStore`: the `lightning:heap` sorted set (member
to score), the `lightning:data` hash and the `lightning:meta` hash. -/
structure LightningState where
  heap : List (String × ℚ)
  dataMap : List (String × PyDict)
  meta : List (String × MetaInfo)
deriving DecidableEq


/-- A fresh `LightningStore`: all Redis structures empty. -/
def lightningInit : LightningState := { heap := [], dataMap := [], meta := [] }


/-- Redis hset / zadd on a keyed list: replace the value of an existing
member, append a new member. -/
def hset {α : Type} (l : List (String × α)) (k : String) (v : α) : List (String × α) :=
  if (l.lookup k).isSome then l.map (fun p => if p.1 == k then (k, v) else p)
  else l ++ [(k, v)]


/-- Embedding of `LightningStore.push`: store the payload with the given priority
score and a fresh meta record. -/
def push (st : LightningState) (now : ℚ) (anchor_id : String) (data : PyDict)
    (priority : ℚ) : LightningState :=
  { heap := hset st.heap anchor_id priority
    dataMap := hset st.dataMap anchor_id data
    meta := hset st.meta anchor_id
      { created := now, last_accessed := now, access_count := 1 } }


/-- Embedding of `LightningStore._apply_decay`, the body of one decay tick: for every
member of the heap, load its meta record (a missing record would make
`json.loads(None)` raise), compute the unused age, and multiply the score
by 0.95. -/
def apply_decay (st : LightningState) : Except String LightningState :=
  if st.heap.all (fun p => (st.meta.lookup p.1).isSome) then
    .ok { st with heap := st.heap.map (fun p => (p.1, p.2 * (19/20))) }
  else
    .error "TypeError"


/-! Concrete collaborator instances used by the closed theorems below.
The hash collaborators stand in for sha256 hexdigests; any function of
the full serialized content works for the claims at hand, so a readable
injective-on-the-inputs encoder is used. -/

/-- Concrete serialization of a payload value. -/
def encodeVal : Val → String
  | .s v => "s:" ++ v
  | .b true => "b:T"
  | .b false => "b:F"
  | .q v => "q:" ++ toString v.num ++ ":" ++ toString v.den
  | .none => "null"


/-- Concrete serialization of a payload dict. -/
def encodeDict (d : PyDict) : String :=
  String.join (d.map (fun p => p.1 ++ "=" ++ encodeVal p.2 ++ ";"))


/-- Concrete collaborator bundle: the dict encoder as hash, no semantic
links, retrieval always missing. -/
def collab0 : Collab :=
  { H := encodeDict
    shouldLink := fun _ _ => false
    retrieve := fun _ _ => Option.none }


/-- A fresh `SovereignMemory`: all stores empty. -/
def smInit : SMState :=
  { lightning_cache := [], fusion_archive := [], tree_nodes := [], tree_edges := []
    request_log := [], active_instances := [], counter := 0 }


/-- Concrete audit hash collaborator for the chain theorems. -/
def hfn0 : ℚ → String → PyDict → Option String → String :=
  fun _t a d p => "a:" ++ a ++ "|d:" ++ encodeDict d ++ "|p:" ++ p.getD "None"


/-- Audit trail after one logged mutation. -/
def audit1 : AuditorState :=
  log_anchor_change hfn0 auditorInit 0 "anchor_change" [("k", Val.s "v1")]


/-- Audit trail after two logged mutations. -/
def audit2 : AuditorState :=
  log_anchor_change hfn0 audit1 1 "anchor_change" [("k", Val.s "v2")]


/-- The two-entry audit trail with the first entry's payload replaced. -/
def audit2t : AuditorState :=
  { audit2 with log := tamper_payload audit2.log 0 [("k", Val.s "tampered")] }


/-- Payload anchored in the fusion-vault theorems. -/
def vaultData0 : PyDict :=
  [("id", Val.s "anchor-1"), ("timestamp", Val.s "t0"), ("body", Val.s "x")]


/-- Concrete string-hash collaborator for the vault theorems. -/
def sha0 : String → String := fun s => "h:" ++ s


/-- Vault state after anchoring `vaultData0` once. -/
def vault1 : VaultState :=
  ((anchor encodeDict sha0 vaultInit vaultData0 Option.none).toOption.map Prod.fst).getD vaultInit


/-- Volatile store holding one entry pushed with priority -1. -/
def lightningNeg : LightningState := push lightningInit 0 "a" [] (-1)


/-- The same store after one decay tick. -/
def lightningNegDecayed : LightningState :=
  (apply_decay lightningNeg).toOption.getD lightningInit


/-- Cosine collaborator that reports contradiction-grade similarity. -/
def cosNeg : ℕ → ℕ → ℚ := fun _ _ => -1


/-- Recent-window collaborator returning a single live entry. -/
def recentOne : ℕ → List LiveEntry := fun _ => [{ id := "live-1", context_vector := 0 }]


/-- Embedding collaborator for the decay-sandbox theorems. -/
def genZero : DDict → ℕ := fun _ => 0


/-- Pending list after registering one expired anchor. -/
def pendingC7 : List DDict :=
  (add_expired_anchor genZero [] [("content", DVal.val (Val.s "x"))]).toOption.getD []


/-- The result node built by `collapse_instance` via `store`: lightning
tier, trust 0.9, empty dependencies. -/
def collapseNode (st : SMState) (now : ℚ) (results : PyDict) : MemoryNode :=
  { id := "mem_" ++ toString st.counter
    content := results
    tier := .lightning
    creation_time := now
    last_accessed := now
    trust_score := 9/10
    dependencies := []
    degradation_rate := calculate_degradation_rate results .lightning }


/-- State reached by `collapse_instance` right after removing the view
and storing the result node, before the dependency loop. -/
def collapse_base (st : SMState) (now : ℚ) (instance_id : String) (results : PyDict) : SMState :=
  { st with
      active_instances := st.active_instances.filter (fun p => p.1 != instance_id)
      counter := st.counter + 1
      lightning_cache := st.lightning_cache ++
        [("mem_" ++ toString st.counter, collapseNode st now results)] }


/-- State with two stored lightning nodes mem_0 and mem_1. -/
def smTwoNodes : SMState :=
  (store collab0 ((store collab0 smInit 0 [("a", Val.b true)] .lightning (1/2)).1) 0
    [("b", Val.b true)] .lightning (1/2)).1


/-- The two-node state with an active instance inst_2 borrowing both. -/
def smSpawned : SMState := (spawn_instance smTwoNodes 0 "bp-1" ["mem_0", "mem_1"]).1


/-- The collapse call under scrutiny. -/
def collapsedA : SMState × Bool :=
  collapse_instance collab0 smSpawned 0 "inst_2" [("r", Val.b true)]


/-- The instance record registered by the spawn in `smSpawned`. -/
def instInfoA : InstanceInfo :=
  { blueprint := "bp-1", memory_slice := ["mem_0", "mem_1"], created := 0,
    last_activity := 0, status := "active" }


/-- The node stored as mem_0 in `smTwoNodes`. -/
def nodeA : MemoryNode :=
  { id := "mem_0", content := [("a", Val.b true)], tier := .lightning,
    creation_time := 0, last_accessed := 0, trust_score := 1/2,
    dependencies := [], degradation_rate := calculate_degradation_rate [("a", Val.b true)] .lightning }


/-! Helper lemmas about association-list lookups and the state
operations, shared by the claim theorems below. -/

theorem lookup_append {α : Type} (l m : List (String × α)) (k : String) :
    (l ++ m).lookup k = ((l.lookup k).orElse fun _ => m.lookup k) := by
  induction l with
  | nil => simp [Option.orElse]
  | cons a t ih =>
    obtain ⟨b, c⟩ := a
    rw [List.cons_append, List.lookup, List.lookup]
    cases h : k == b
    · simpa using ih
    · simp [Option.orElse]


theorem lookup_map_snd {α β : Type} (f : α → β) (l : List (String × α)) (k : String) :
    (l.map (fun p => (p.1, f p.2))).lookup k = (l.lookup k).map f := by
  induction l with
  | nil => simp
  | cons a t ih =>
    obtain ⟨b, c⟩ := a
    rw [List.map_cons, List.lookup, List.lookup]
    cases h : k == b
    · simpa using ih
    · simp


theorem lookup_filter_ne_key {α : Type} (l : List (String × α)) (k x : String) (h : x ≠ k) :
    (l.filter (fun p => p.1 != k)).lookup x = l.lookup x := by
  induction l with
  | nil => simp
  | cons a t ih =>
    obtain ⟨b, c⟩ := a
    rw [List.filter_cons]
    by_cases hb : b = k
    · subst hb
      have hx : (x == b) = false := by simp [h]
      simp [List.lookup, hx, ih]
    · have hbk : (b != k) = true := by simp [hb]
      rw [if_pos hbk, List.lookup, List.lookup]
      cases hx : x == b
      · exact ih
      · rfl


theorem lookup_filter_self_none {α : Type} (l : List (String × α)) (k : String) :
    (l.filter (fun p => p.1 != k)).lookup k = Option.none := by
  induction l with
  | nil => simp
  | cons a t ih =>
    obtain ⟨b, c⟩ := a
    rw [List.filter_cons]
    by_cases hb : b = k
    · subst hb
      simpa using ih
    · have : (b != k) = true := by simp [hb]
      rw [if_pos this, List.lookup]
      have : (k == b) = false := by simp [Ne.symm hb]
      rw [this]
      exact ih


theorem dictGet_dictSet_self (d : PyDict) (k : String) (v : Val) :
    dictGet (dictSet d k v) k = some v := by
  unfold dictGet dictSet
  rw [lookup_append, lookup_filter_self_none]
  simp [List.lookup, Option.orElse]


theorem dictGet_dictSet_ne (d : PyDict) (k x : String) (v : Val) (h : x ≠ k) :
    dictGet (dictSet d k v) x = dictGet d x := by
  unfold dictGet dictSet
  rw [lookup_append, lookup_filter_ne_key d k x h]
  have hx : (x == k) = false := by simp [h]
  cases hl : d.lookup x
  · simp [Option.orElse, List.lookup, hx]
  · simp [Option.orElse]


/-- C1: the claim says `verify_audit_chain()` returns true on every
honestly produced audit log and false once any historical entry's payload
digest is mutated.  The source's `verify_chain` is a stub returning True
unconditionally, so the second half fails: on the two-entry log below,
the spec's own integrity predicate accepts the honest log and rejects the
tampered one, yet `verify_chain` returns true on both. -/
theorem verify_chain_stub_ignores_tampering :
    verify_chain audit2 = true ∧
    spec_chain_integrity hfn0 audit2.log = true ∧
    spec_chain_integrity hfn0 audit2t.log = false ∧
    verify_chain audit2t = true :=
  ⟨rfl, by decide, by decide, rfl⟩


/-- C4 counterexample: the claim says re-anchoring identical content is
idempotent (same hash returned, no duplicate entry).  On the source,
anchoring the very same payload a second time hits the `id` primary key
and raises `IntegrityError` instead of returning the content hash. -/
theorem anchor_identical_reanchor_raises :
    anchor encodeDict sha0 vaultInit vaultData0 Option.none =
      .ok (vault1, encodeDict vaultData0) ∧
    anchor encodeDict sha0 vault1 vaultData0 (some (encodeDict vaultData0)) =
      .error "IntegrityError" :=
  ⟨rfl, rfl⟩


/-- C4 amended: a second `anchor` call whose payload carries an already
anchored `id` fails with `IntegrityError` whether or not the content
differs — in particular re-anchoring identical content is not idempotent —
and, the transaction aborting, no duplicate entry is created (the error
branch leaves the table unchanged). -/
theorem anchor_duplicate_id_raises (H : PyDict → String) (sha : String → String)
    (st : VaultState) (data : PyDict) (ph : Option String) (id : String)
    (hid : dictGet data "id" = some (Val.s id))
    (hts : (dictGet data "timestamp").isSome = true)
    (hdup : (st.anchors.lookup id).isSome = true) :
    anchor H sha st data ph = .error "IntegrityError" := by
  obtain ⟨ts, hts2⟩ := Option.isSome_iff_exists.mp hts
  unfold anchor
  rw [hid, hts2]
  simp [hdup]


/-- Witness for the amended C4 theorem at the concrete one-entry vault. -/
theorem anchor_duplicate_id_raises_witness :
    dictGet vaultData0 "id" = some (Val.s "anchor-1") ∧
    (dictGet vaultData0 "timestamp").isSome = true ∧
    (vault1.anchors.lookup "anchor-1").isSome = true ∧
    anchor encodeDict sha0 vault1
      [("id", Val.s "anchor-1"), ("timestamp", Val.s "t1"), ("body", Val.s "y")]
      Option.none = .error "IntegrityError" :=
  ⟨by decide, by decide, by decide,
    anchor_duplicate_id_raises encodeDict sha0 vault1
      [("id", Val.s "anchor-1"), ("timestamp", Val.s "t1"), ("body", Val.s "y")]
      Option.none "anchor-1" (by decide) (by decide) (by decide)⟩


/-- C8 counterexample: the claim says successive decay ticks never
increase a volatile entry's priority.  The tick multiplies the score by
0.95, so an entry pushed with priority -1 moves to -0.95, an increase. -/
theorem decay_tick_increases_negative_priority :
    apply_decay lightningNeg = .ok lightningNegDecayed ∧
    lightningNeg.heap.lookup "a" = some (-1) ∧
    lightningNegDecayed.heap.lookup "a" = some (-(19/20)) ∧
    ((-1 : ℚ) < -(19/20)) := by
  refine ⟨rfl, rfl, ?_, by norm_num⟩
  have h1 : lightningNegDecayed.heap.lookup "a" = some ((-1 : ℚ) * (19/20)) := rfl
  rw [h1]
  norm_num


/-- C8 amended: for a volatile entry whose priority is non-negative, a
decay tick rescales it by 0.95 and never increases it (ticks compose, so
successive ticks never increase it either; `get` does not touch heap
scores, so intervening reads are immaterial to the score). -/
theorem apply_decay_nonneg_never_increases (st st2 : LightningState)
    (anchor_id : String) (p : ℚ)
    (hd : apply_decay st = .ok st2)
    (hl : st.heap.lookup anchor_id = some p)
    (hp : 0 ≤ p) :
    st2.heap.lookup anchor_id = some (p * (19/20)) ∧ p * (19/20) ≤ p := by
  unfold apply_decay at hd
  split at hd
  · cases hd
    constructor
    · rw [lookup_map_snd (fun q => q * (19/20)) st.heap anchor_id, hl]
      rfl
    · linarith
  · cases hd


/-- Witness for the amended C8 theorem: an entry pushed with priority 1
decays to 0.95. -/
theorem apply_decay_nonneg_never_increases_witness :
    apply_decay (push lightningInit 0 "a" [] 1) =
      .ok ((apply_decay (push lightningInit 0 "a" [] 1)).toOption.getD lightningInit) ∧
    (push lightningInit 0 "a" [] 1).heap.lookup "a" = some 1 ∧
    ((0 : ℚ) ≤ 1) ∧
    (((apply_decay (push lightningInit 0 "a" [] 1)).toOption.getD
        lightningInit).heap.lookup "a" = some ((1 : ℚ) * (19/20)) ∧
      (1 : ℚ) * (19/20) ≤ 1) :=
  ⟨rfl, rfl, by norm_num,
    apply_decay_nonneg_never_increases (push lightningInit 0 "a" [] 1)
      ((apply_decay (push lightningInit 0 "a" [] 1)).toOption.getD lightningInit)
      "a" 1 rfl rfl (by norm_num)⟩


/-- C7: the claim says a mean similarity below -0.3 makes the loop log an
entropy record with resolution "contradiction".  On the source, the
pending record built by `add_expired_anchor` holds only the keys
`content`, `decay_reason` and `context_vector`, while the contradiction
branch reads `expired["id"]`, so the branch raises KeyError instead of
logging: with one live entry at similarity -1 (mean -1 < -0.3) the
analysis aborts. -/
theorem analyze_anchors_contradiction_keyerror :
    add_expired_anchor genZero [] [("content", DVal.val (Val.s "x"))] = .ok pendingC7 ∧
    pendingC7 = [[("content", DVal.val (Val.s "x")),
                  ("decay_reason", DVal.val (Val.s "time")),
                  ("context_vector", DVal.vec 0)]] ∧
    has_conflict cosNeg 0 (recentOne 0) = true ∧
    analyze_anchors cosNeg recentOne pendingC7 = .error "KeyError: id" := by
  have hc : has_conflict cosNeg 0 (recentOne 0) = true := by
    simp [has_conflict, recentOne, cosNeg]
    norm_num
  refine ⟨rfl, rfl, hc, ?_⟩
  simp [analyze_anchors, analyze_go, pendingC7, add_expired_anchor, ddictGet,
    List.lookup, genZero, hc]


/-- C2: the pipeline computes
`perf_score = 0.6*(1-risk_score) + 0.4*compatibility` and commits the new
node to the immutable (fusion) tier exactly when `perf_score > 0.7`, else
to the volatile (lightning) tier; the committed tier is
`tier_for_score (score risk compat)`, a function of the perf score alone,
whatever the state, payload, clock or collaborators — hence independent
of call order. -/
theorem ingestion_scoring_and_placement (cb : Collab) (st : SMState) (now : ℚ)
    (data : PyDict) (risk compat : ℚ) :
    score risk compat = (6/10) * (1 - risk) + (4/10) * compat ∧
    committed_tier st (process_ingestion cb st now data risk compat) =
      some (tier_for_score (score risk compat)) := by
  constructor
  · unfold score
    ring
  · unfold process_ingestion committed_tier tier_for_score store
    by_cases hgt : score risk compat > 7/10
    · simp [hgt]
    · simp [hgt]


/-- C6: for an ingested item whose perf score is below 0.3 the monitor
flags the anomaly `\x7btype: low_performance, severity: 1 - perf_score\x7d`;
that severity always reaches 0.5, the payload is refactored — tagged with
`_refactored`, `_anomaly` and `_original_hash` — and the item is still
committed to the volatile tier rather than rejected. -/
theorem low_perf_anomaly_refactor_commit (cb : Collab) (st : SMState) (now : ℚ)
    (data : PyDict) (risk compat : ℚ)
    (h : score risk compat < 3/10) :
    check data (score risk compat) =
      some { type := "low_performance", severity := 1 - score risk compat,
             deprecate_prior := Option.none } ∧
    (1 : ℚ) - score risk compat ≥ 1/2 ∧
    committed_tier st (process_ingestion cb st now data risk compat) =
      some MemoryTier.lightning ∧
    ∃ node : MemoryNode,
      (process_ingestion cb st now data risk compat).state.lightning_cache.getLast? =
        some ((process_ingestion cb st now data risk compat).memory_id, node) ∧
      node.tier = MemoryTier.lightning ∧
      dictGet node.content "_refactored" = some (Val.b true) ∧
      dictGet node.content "_anomaly" = some (Val.s "low_performance") ∧
      dictGet node.content "_original_hash" = some (Val.s (cb.H data)) := by
  have hcheck : check data (score risk compat) =
      some { type := "low_performance", severity := 1 - score risk compat,
             deprecate_prior := Option.none } := by
    unfold check
    rw [if_pos h]
  have hns : ¬ (score risk compat > 7/10) := by linarith
  have htags :
      dictGet (refactor_memory cb data
        { type := "low_performance", severity := 1 - score risk compat,
          deprecate_prior := Option.none }) "_refactored" = some (Val.b true) ∧
      dictGet (refactor_memory cb data
        { type := "low_performance", severity := 1 - score risk compat,
          deprecate_prior := Option.none }) "_anomaly" = some (Val.s "low_performance") ∧
      dictGet (refactor_memory cb data
        { type := "low_performance", severity := 1 - score risk compat,
          deprecate_prior := Option.none }) "_original_hash" = some (Val.s (cb.H data)) := by
    unfold refactor_memory
    refine ⟨?_, ?_, ?_⟩
    · rw [dictGet_dictSet_ne _ _ _ _ (by decide),
        dictGet_dictSet_ne _ _ _ _ (by decide), dictGet_dictSet_self]
    · rw [dictGet_dictSet_ne _ _ _ _ (by decide), dictGet_dictSet_self]
    · rw [dictGet_dictSet_self]
  have hrun : process_ingestion cb st now data risk compat =
      { state := { st with
          counter := st.counter + 1
          lightning_cache := st.lightning_cache ++
            [("mem_" ++ toString st.counter,
              { id := "mem_" ++ toString st.counter
                content := refactor_memory cb data
                  { type := "low_performance", severity := 1 - score risk compat,
                    deprecate_prior := Option.none }
                tier := .lightning
                creation_time := now
                last_accessed := now
                trust_score := score risk compat
                dependencies := []
                degradation_rate := calculate_degradation_rate
                  (refactor_memory cb data
                    { type := "low_performance", severity := 1 - score risk compat,
                      deprecate_prior := Option.none }) .lightning })] }
        memory_id := "mem_" ++ toString st.counter
        status := "completed" } := by
    unfold process_ingestion store
    simp [hcheck, hns]
  refine ⟨hcheck, by linarith, ?_, ?_⟩
  · rw [hrun]
    unfold committed_tier
    simp
  · rw [hrun]
    refine ⟨{ id := "mem_" ++ toString st.counter
              content := refactor_memory cb data
                { type := "low_performance", severity := 1 - score risk compat,
                  deprecate_prior := Option.none }
              tier := .lightning
              creation_time := now
              last_accessed := now
              trust_score := score risk compat
              dependencies := []
              degradation_rate := calculate_degradation_rate
                (refactor_memory cb data
                  { type := "low_performance", severity := 1 - score risk compat,
                    deprecate_prior := Option.none }) .lightning },
            ?_, rfl, htags.1, htags.2.1, htags.2.2⟩
    simp


/-- Witness for C6 at the spec's own scenario `risk_score=0.9,
compatibility=0.1`, giving perf score 0.1 and anomaly severity 0.9. -/
theorem low_perf_anomaly_refactor_commit_witness :
    score (9/10) (1/10) < 3/10 ∧
    (check [("event", Val.s "e")] (score (9/10) (1/10)) =
      some { type := "low_performance", severity := 1 - score (9/10) (1/10),
             deprecate_prior := Option.none } ∧
    (1 : ℚ) - score (9/10) (1/10) ≥ 1/2 ∧
    committed_tier smInit (process_ingestion collab0 smInit 0 [("event", Val.s "e")] (9/10) (1/10)) =
      some MemoryTier.lightning ∧
    ∃ node : MemoryNode,
      (process_ingestion collab0 smInit 0 [("event", Val.s "e")] (9/10) (1/10)).state.lightning_cache.getLast? =
        some ((process_ingestion collab0 smInit 0 [("event", Val.s "e")] (9/10) (1/10)).memory_id, node) ∧
      node.tier = MemoryTier.lightning ∧
      dictGet node.content "_refactored" = some (Val.b true) ∧
      dictGet node.content "_anomaly" = some (Val.s "low_performance") ∧
      dictGet node.content "_original_hash" = some (Val.s (collab0.H [("event", Val.s "e")]))) :=
  ⟨by norm_num [score],
    low_perf_anomaly_refactor_commit collab0 smInit 0 [("event", Val.s "e")]
      (9/10) (1/10) (by norm_num [score])⟩


/-- The node-mutation helpers never touch the request log. -/
theorem setNodeById_request_log (s : SMState) (k : String) (n : MemoryNode) :
    (setNodeById s k n).request_log = s.request_log := by
  unfold setNodeById
  split
  · rfl
  · split
    · rfl
    · split
      · rfl
      · rfl


/-- C3: a WRITE request from a requester that fails the trust predicate
(fingerprint not starting with "trusted_") is denied: `request_memory`
returns `access_granted = false`, creates no node (the id counter and all
three tier stores are untouched), and modifies no node state. -/
theorem write_denied_no_node_change (cb : Collab) (st : SMState) (now : ℚ)
    (req : MemoryRequest)
    (hw : req.access_type = MemoryAccessLevel.write)
    (ht : startswith req.requester "trusted_" = false) :
    ∃ st2 resp,
      request_memory cb st now req = .ok (st2, resp) ∧
      resp.access_granted = false ∧
      st2.lightning_cache = st.lightning_cache ∧
      st2.fusion_archive = st.fusion_archive ∧
      st2.tree_nodes = st.tree_nodes ∧
      st2.tree_edges = st.tree_edges ∧
      st2.active_instances = st.active_instances ∧
      st2.counter = st.counter := by
  have hacc : evaluate now req =
      { granted := false, rejection_reason := some "Write access restricted",
        scope_limits := Option.none } := by
    unfold evaluate
    rw [if_pos hw]
    simp [ht]
  unfold request_memory
  rw [hacc]
  exact ⟨_, _, rfl, rfl, rfl, rfl, rfl, rfl, rfl, rfl⟩


/-- Witness for C3: an untrusted WRITE request against the empty state. -/
theorem write_denied_no_node_change_witness :
    ({ requester := "agent-7", intent := "store", context := [],
       requested_tier := MemoryTier.lightning,
       access_type := MemoryAccessLevel.write,
       justification := "j" } : MemoryRequest).access_type = MemoryAccessLevel.write ∧
    startswith "agent-7" "trusted_" = false ∧
    ∃ st2 resp,
      request_memory collab0 smInit 0
        { requester := "agent-7", intent := "store", context := [],
          requested_tier := MemoryTier.lightning,
          access_type := MemoryAccessLevel.write,
          justification := "j" } = .ok (st2, resp) ∧
      resp.access_granted = false ∧
      st2.lightning_cache = smInit.lightning_cache ∧
      st2.fusion_archive = smInit.fusion_archive ∧
      st2.tree_nodes = smInit.tree_nodes ∧
      st2.tree_edges = smInit.tree_edges ∧
      st2.active_instances = smInit.active_instances ∧
      st2.counter = smInit.counter :=
  ⟨rfl, by decide,
    write_denied_no_node_change collab0 smInit 0
      { requester := "agent-7", intent := "store", context := [],
        requested_tier := MemoryTier.lightning,
        access_type := MemoryAccessLevel.write,
        justification := "j" } rfl (by decide)⟩


/-- The bounded deque append in normal form: the surviving old entries
followed by the new one. -/
theorem dequeAppend_shape (l : List LogEntry) (e : LogEntry) :
    dequeAppend 100000 l e = l.drop (l.length + 1 - 100000) ++ [e] := by
  unfold dequeAppend
  rw [List.drop_append_eq_append_drop]
  simp only [List.length_append, List.length_cons, List.length_nil]
  have h2 : l.length + (0 + 1) - 100000 - l.length = 0 := by omega
  rw [h2]
  norm_num


/-- Rewriting the outcome of the last log entry after an append. -/
theorem setLastGranted_concat (l : List LogEntry) (e : LogEntry) (b : Bool) :
    setLastGranted (l ++ [e]) b = l ++ [{ e with granted := b }] := by
  unfold setLastGranted
  rw [List.getLast?_concat, List.dropLast_concat]


/-- C9: whenever `request_memory` returns, the request has been appended
to the request log (the entry carries the request itself) and the logged
outcome — rewritten after policy evaluation — equals the response's
`access_granted`; the surviving earlier entries are an untouched suffix
of the previous log (the deque drops oldest entries only at its 100000
capacity). -/
theorem request_log_records_outcome (cb : Collab) (st : SMState) (now : ℚ)
    (req : MemoryRequest) (st2 : SMState) (resp : MemoryResponse)
    (h : request_memory cb st now req = .ok (st2, resp)) :
    st2.request_log =
      st.request_log.drop (st.request_log.length + 1 - 100000) ++
        [{ timestamp := now, request := req, granted := resp.access_granted }] := by
  unfold request_memory at h
  simp only [] at h
  split at h
  · cases h
  · cases h
    rename_i a b heq
    split at heq
    · split at heq
      · cases heq
      · split at heq
        · cases heq
        · cases heq
          simp only [setNodeById_request_log]
          rw [dequeAppend_shape, setLastGranted_concat]
    · cases heq
      simp only []
      rw [dequeAppend_shape, setLastGranted_concat]


/-- Witness for C9: a denied WRITE request against the empty state ends
with a one-entry log whose outcome matches the response. -/
theorem request_log_records_outcome_witness :
    ∃ st2 resp,
      request_memory collab0 smInit 0
        { requester := "agent-7", intent := "store", context := [],
          requested_tier := MemoryTier.lightning,
          access_type := MemoryAccessLevel.write,
          justification := "j" } = .ok (st2, resp) ∧
      st2.request_log =
        smInit.request_log.drop (smInit.request_log.length + 1 - 100000) ++
          [{ timestamp := 0,
             request :=
               { requester := "agent-7", intent := "store", context := [],
                 requested_tier := MemoryTier.lightning,
                 access_type := MemoryAccessLevel.write,
                 justification := "j" },
             granted := resp.access_granted }] :=
  ⟨_, _, rfl,
    request_log_records_outcome collab0 smInit 0
      { requester := "agent-7", intent := "store", context := [],
        requested_tier := MemoryTier.lightning,
        access_type := MemoryAccessLevel.write,
        justification := "j" } _ _ rfl⟩


/-- C10: a denied `request_memory` call returns a response with null
content, the empty scope-limit structure, degradation 0.0, and metadata
carrying the policy's rejection reason (the only denial the policy
produces is the untrusted-WRITE one, with reason "Write access
restricted"). -/
theorem denied_response_shape (cb : Collab) (st : SMState) (now : ℚ)
    (req : MemoryRequest) (st2 : SMState) (resp : MemoryResponse)
    (h : request_memory cb st now req = .ok (st2, resp))
    (hg : resp.access_granted = false) :
    resp.content = Option.none ∧
    resp.scope_limits = some [] ∧
    resp.degradation = 0 ∧
    resp.metadata = [("reason", Val.s "Write access restricted")] := by
  unfold request_memory at h
  simp only [] at h
  split at h
  · cases h
  · cases h
    rename_i a b heq
    split at heq
    · split at heq
      · cases heq
      · split at heq
        · cases heq
        · cases heq
          simp at hg
    · rename_i hacc
      have hreason : (evaluate now req).rejection_reason = some "Write access restricted" := by
        unfold evaluate at hacc ⊢
        by_cases hw : req.access_type = MemoryAccessLevel.write
        · rw [if_pos hw] at hacc ⊢
          simp only [] at hacc
          cases hsw : startswith req.requester "trusted_"
          · simp [hsw]
          · rw [hsw] at hacc
            simp at hacc
        · rw [if_neg hw] at hacc
          simp at hacc
      cases heq
      refine ⟨rfl, rfl, rfl, ?_⟩
      rw [hreason]


/-- Witness for C10: the concrete denied WRITE request. -/
theorem denied_response_shape_witness :
    ∃ st2 resp,
      request_memory collab0 smInit 0
        { requester := "agent-7", intent := "store", context := [],
          requested_tier := MemoryTier.lightning,
          access_type := MemoryAccessLevel.write,
          justification := "j" } = .ok (st2, resp) ∧
      resp.access_granted = false ∧
      resp.content = Option.none ∧
      resp.scope_limits = some [] ∧
      resp.degradation = 0 ∧
      resp.metadata = [("reason", Val.s "Write access restricted")] :=
  ⟨_, _, rfl, rfl,
    denied_response_shape collab0 smInit 0
      { requester := "agent-7", intent := "store", context := [],
        requested_tier := MemoryTier.lightning,
        access_type := MemoryAccessLevel.write,
        justification := "j" } _ _ rfl rfl⟩


theorem assocSet_cons (b : String) (c : MemoryNode) (t : List (String × MemoryNode))
    (k : String) (n : MemoryNode) :
    assocSet ((b, c) :: t) k n = (if b == k then (k, n) else (b, c)) :: assocSet t k n := rfl


theorem lookup_assocSet_self (l : List (String × MemoryNode)) (k : String) (n : MemoryNode)
    (h : (l.lookup k).isSome = true) : (assocSet l k n).lookup k = some n := by
  induction l with
  | nil => simp at h
  | cons a t ih =>
    obtain ⟨b, c⟩ := a
    rw [assocSet_cons]
    by_cases hb : b = k
    · rw [if_pos (by simp [hb] : (b == k) = true)]
      simp [List.lookup]
    · rw [if_neg (by simp [hb] : ¬ ((b == k) = true))]
      have hkb : (k == b) = false := by simp [Ne.symm hb]
      rw [List.lookup, hkb] at h
      rw [List.lookup, hkb]
      exact ih h


theorem lookup_assocSet_ne (l : List (String × MemoryNode)) (k x : String) (n : MemoryNode)
    (h : x ≠ k) : (assocSet l k n).lookup x = l.lookup x := by
  induction l with
  | nil => rfl
  | cons a t ih =>
    obtain ⟨b, c⟩ := a
    rw [assocSet_cons]
    by_cases hb : b = k
    · rw [if_pos (by simp [hb] : (b == k) = true)]
      have hxk : (x == k) = false := by simp [h]
      have hxb : (x == b) = false := by
        simp [show x ≠ b from fun hx => h (hx.trans hb)]
      rw [List.lookup, hxk, List.lookup, hxb]
      exact ih
    · rw [if_neg (by simp [hb] : ¬ ((b == k) = true))]
      rw [List.lookup, List.lookup]
      cases hxb : x == b
      · exact ih
      · rfl


theorem get_setNodeById_ne (s : SMState) (k x : String) (n : MemoryNode) (h : x ≠ k) :
    get_memory_by_id (setNodeById s k n) x = get_memory_by_id s x := by
  unfold setNodeById get_memory_by_id
  split
  · simp only [lookup_assocSet_ne _ _ _ _ h]
  · split
    · simp only [lookup_assocSet_ne _ _ _ _ h]
    · split
      · simp only [lookup_assocSet_ne _ _ _ _ h]
      · rfl


theorem get_setNodeById_self (s : SMState) (k : String) (n : MemoryNode)
    (h : (get_memory_by_id s k).isSome = true) :
    get_memory_by_id (setNodeById s k n) k = some n := by
  unfold get_memory_by_id at h
  unfold setNodeById get_memory_by_id
  split
  · rename_i hl
    simp only [lookup_assocSet_self _ _ _ hl, Option.orElse]
  · split
    · rename_i hl hf
      have hln : s.lightning_cache.lookup k = Option.none :=
        Option.not_isSome_iff_eq_none.mp (by simpa using hl)
      simp only [hln, lookup_assocSet_self _ _ _ hf, Option.orElse]
    · split
      · rename_i hl hf ht
        have hln : s.lightning_cache.lookup k = Option.none :=
          Option.not_isSome_iff_eq_none.mp (by simpa using hl)
        have hfn : s.fusion_archive.lookup k = Option.none :=
          Option.not_isSome_iff_eq_none.mp (by simpa using hf)
        simp only [hln, hfn, lookup_assocSet_self _ _ _ ht, Option.orElse]
      · rename_i hl hf ht
        have hln : s.lightning_cache.lookup k = Option.none :=
          Option.not_isSome_iff_eq_none.mp (by simpa using hl)
        have hfn : s.fusion_archive.lookup k = Option.none :=
          Option.not_isSome_iff_eq_none.mp (by simpa using hf)
        have htn : s.tree_nodes.lookup k = Option.none :=
          Option.not_isSome_iff_eq_none.mp (by simpa using ht)
        rw [hln, hfn, htn] at h
        simp [Option.orElse] at h


theorem get_append_dependency_ne (s : SMState) (rid c x : String) (h : x ≠ c) :
    get_memory_by_id (append_dependency s rid c) x = get_memory_by_id s x := by
  unfold append_dependency
  cases hm : get_memory_by_id s c
  · rfl
  · exact get_setNodeById_ne _ _ _ _ h


theorem get_foldl_append_dependency_not_mem (slice : List String) (s : SMState)
    (rid x : String) (h : x ∉ slice) :
    get_memory_by_id
      (slice.foldl (fun acc mem_id => append_dependency acc rid mem_id) s) x =
    get_memory_by_id s x := by
  induction slice generalizing s with
  | nil => rfl
  | cons a t ih =>
    rw [List.foldl_cons]
    rw [ih _ (fun hx => h (List.mem_cons_of_mem a hx))]
    exact get_append_dependency_ne s rid a x (fun hx => h (hx ▸ List.mem_cons_self a t))


theorem get_foldl_append_dependency_mem (slice : List String) :
    ∀ (s : SMState) (rid x : String) (m : MemoryNode),
      slice.Nodup → x ∈ slice → get_memory_by_id s x = some m →
      get_memory_by_id
        (slice.foldl (fun acc mem_id => append_dependency acc rid mem_id) s) x =
      some { m with dependencies := m.dependencies ++ [rid] } := by
  induction slice with
  | nil =>
    intro s rid x m _ hx _
    cases hx
  | cons a t ih =>
    intro s rid x m hnd hx hget
    rw [List.foldl_cons]
    rcases List.mem_cons.mp hx with hxa | hxt
    · subst hxa
      have hnot : x ∉ t := (List.nodup_cons.mp hnd).1
      rw [get_foldl_append_dependency_not_mem t _ rid x hnot]
      unfold append_dependency
      rw [hget]
      exact get_setNodeById_self s x _ (by rw [hget]; rfl)
    · have hxa : x ≠ a := fun hxa => (List.nodup_cons.mp hnd).1 (hxa ▸ hxt)
      exact ih (append_dependency s rid a) rid x m (List.nodup_cons.mp hnd).2 hxt
        (by rw [get_append_dependency_ne s rid a x hxa]; exact hget)


theorem get_memory_by_id_none (s : SMState) (x : String) :
    get_memory_by_id s x = Option.none ↔
      s.lightning_cache.lookup x = Option.none ∧
      s.fusion_archive.lookup x = Option.none ∧
      s.tree_nodes.lookup x = Option.none := by
  unfold get_memory_by_id
  cases hl : s.lightning_cache.lookup x <;>
    cases hf : s.fusion_archive.lookup x <;>
      cases ht : s.tree_nodes.lookup x <;>
        simp [Option.orElse]


theorem collapse_instance_some (cb : Collab) (st : SMState) (now : ℚ)
    (instance_id : String) (results : PyDict) (inst : InstanceInfo)
    (h : st.active_instances.lookup instance_id = some inst) :
    collapse_instance cb st now instance_id results =
      (inst.memory_slice.foldl
        (fun acc mem_id => append_dependency acc ("mem_" ++ toString st.counter) mem_id)
        (collapse_base st now instance_id results),
       true) := by
  unfold collapse_instance store collapse_base collapseNode
  rw [h]


theorem get_collapse_base_rid (st : SMState) (now : ℚ) (instance_id : String)
    (results : PyDict)
    (hfresh : get_memory_by_id st ("mem_" ++ toString st.counter) = Option.none) :
    get_memory_by_id (collapse_base st now instance_id results)
      ("mem_" ++ toString st.counter) = some (collapseNode st now results) := by
  obtain ⟨hlf, _, _⟩ := (get_memory_by_id_none st _).mp hfresh
  unfold collapse_base get_memory_by_id
  simp only []
  rw [lookup_append, hlf]
  simp [List.lookup, Option.orElse]


theorem get_collapse_base_ne (st : SMState) (now : ℚ) (instance_id : String)
    (results : PyDict) (x : String) (hx : x ≠ "mem_" ++ toString st.counter) :
    get_memory_by_id (collapse_base st now instance_id results) x =
      get_memory_by_id st x := by
  unfold collapse_base get_memory_by_id
  simp only []
  rw [lookup_append]
  have hsingle : List.lookup x
      [("mem_" ++ toString st.counter, collapseNode st now results)] = Option.none := by
    rw [List.lookup]
    have hxx : (x == "mem_" ++ toString st.counter) = false := by simp [hx]
    rw [hxx]
    rfl
  rw [hsingle]
  cases hl : st.lightning_cache.lookup x <;> simp [Option.orElse]


/-- C5 amended: `collapse_instance` returns false when the instance id is
unknown or already collapsed; on an active instance it returns true and
stores the result as a new lightning node — but that node's
`dependencies` list is empty, not the set of borrowed ids: instead the
code appends the result node's id to the dependencies of every borrowed
node that exists (hypotheses: the fresh result id does not collide with
an existing node or the slice, and the slice has no duplicates). -/
theorem collapse_instance_behavior (cb : Collab) (st : SMState) (now : ℚ)
    (instance_id : String) (results : PyDict) :
    (st.active_instances.lookup instance_id = Option.none →
      collapse_instance cb st now instance_id results = (st, false)) ∧
    (∀ inst : InstanceInfo,
      st.active_instances.lookup instance_id = some inst →
      get_memory_by_id st ("mem_" ++ toString st.counter) = Option.none →
      ("mem_" ++ toString st.counter) ∉ inst.memory_slice →
      inst.memory_slice.Nodup →
      (collapse_instance cb st now instance_id results).2 = true ∧
      (get_memory_by_id (collapse_instance cb st now instance_id results).1
          ("mem_" ++ toString st.counter)).map MemoryNode.dependencies = some [] ∧
      (get_memory_by_id (collapse_instance cb st now instance_id results).1
          ("mem_" ++ toString st.counter)).map MemoryNode.content = some results ∧
      (get_memory_by_id (collapse_instance cb st now instance_id results).1
          ("mem_" ++ toString st.counter)).map MemoryNode.tier = some MemoryTier.lightning ∧
      ∀ mem_id ∈ inst.memory_slice, ∀ m : MemoryNode,
        get_memory_by_id st mem_id = some m →
        get_memory_by_id (collapse_instance cb st now instance_id results).1 mem_id =
          some { m with dependencies :=
                   m.dependencies ++ ["mem_" ++ toString st.counter] }) := by
  constructor
  · intro hnone
    unfold collapse_instance
    rw [hnone]
  · intro inst hinst hfresh hslice hnodup
    rw [collapse_instance_some cb st now instance_id results inst hinst]
    have hrid : get_memory_by_id
        (inst.memory_slice.foldl
          (fun acc mem_id => append_dependency acc ("mem_" ++ toString st.counter) mem_id)
          (collapse_base st now instance_id results))
        ("mem_" ++ toString st.counter) = some (collapseNode st now results) := by
      rw [get_foldl_append_dependency_not_mem _ _ _ _ hslice]
      exact get_collapse_base_rid st now instance_id results hfresh
    refine ⟨rfl, ?_, ?_, ?_, ?_⟩
    · rw [hrid]; rfl
    · rw [hrid]; rfl
    · rw [hrid]; rfl
    · intro mem_id hmem m hm
      have hne : mem_id ≠ "mem_" ++ toString st.counter := fun he => hslice (he ▸ hmem)
      exact get_foldl_append_dependency_mem inst.memory_slice
        (collapse_base st now instance_id results) ("mem_" ++ toString st.counter)
        mem_id m hnodup hmem
        (by rw [get_collapse_base_ne st now instance_id results mem_id hne]; exact hm)


/-- C5 counterexample: the claim says the result node's dependencies
contain exactly the borrowed node ids.  Spawning over mem_0 and mem_1 and
collapsing stores the result as mem_3, whose dependencies are empty; the
borrowed nodes instead receive mem_3 in their dependencies. -/
theorem collapse_result_dependencies_counterexample :
    collapsedA.2 = true ∧
    (get_memory_by_id collapsedA.1 "mem_3").map MemoryNode.dependencies = some [] ∧
    ¬ ((get_memory_by_id collapsedA.1 "mem_3").map MemoryNode.dependencies =
        some ["mem_0", "mem_1"]) ∧
    (get_memory_by_id collapsedA.1 "mem_0").map MemoryNode.dependencies = some ["mem_3"] ∧
    (get_memory_by_id collapsedA.1 "mem_1").map MemoryNode.dependencies = some ["mem_3"] := by
  refine ⟨rfl, rfl, ?_, rfl, rfl⟩
  intro hx
  have h0 : (get_memory_by_id collapsedA.1 "mem_3").map MemoryNode.dependencies =
      some ([] : List String) := rfl
  rw [h0] at hx
  simp at hx


/-- Witness for the amended C5 theorem at the concrete spawned state. -/
theorem collapse_instance_behavior_witness :
    smSpawned.active_instances.lookup "inst_2" = some instInfoA ∧
    get_memory_by_id smSpawned ("mem_" ++ toString smSpawned.counter) = Option.none ∧
    ("mem_" ++ toString smSpawned.counter) ∉ instInfoA.memory_slice ∧
    instInfoA.memory_slice.Nodup ∧
    "mem_0" ∈ instInfoA.memory_slice ∧
    get_memory_by_id smSpawned "mem_0" = some nodeA ∧
    (collapse_instance collab0 smSpawned 0 "inst_2" [("r", Val.b true)]).2 = true ∧
    (get_memory_by_id (collapse_instance collab0 smSpawned 0 "inst_2" [("r", Val.b true)]).1
        ("mem_" ++ toString smSpawned.counter)).map MemoryNode.dependencies = some [] ∧
    get_memory_by_id (collapse_instance collab0 smSpawned 0 "inst_2" [("r", Val.b true)]).1
        "mem_0" =
      some { nodeA with dependencies :=
               nodeA.dependencies ++ ["mem_" ++ toString smSpawned.counter] } :=
  have h2 := (collapse_instance_behavior collab0 smSpawned 0 "inst_2"
      [("r", Val.b true)]).2 instInfoA rfl rfl (by decide) (by decide)
  ⟨rfl, rfl, by decide, by decide, by decide, rfl, h2.1, h2.2.1,
    h2.2.2.2.2 "mem_0" (by decide) nodeA rfl⟩


end GraceMemory
